import Mathlib

/-!
Shallow embedding of the seat-reservation core of the cinema ticket service
(`cinema/serializers.py`): hall geometry validation
(`TicketCreateSerializer.validate`), session availability
(`MovieSessionListWithAvailabilitySerializer.get_tickets_available`), and
order creation (`OrderCreateSerializer.validate` / `create`).

Python integers become `Int`; the raw JSON-ish ticket payload becomes
`RawTicket` whose fields are `Option Int` (`none` models a missing field or a
value on which `int(...)` raises). The persisted relational store becomes an
explicit `Store` record threaded through the operations; raising
`ValidationError` becomes returning `.error` in `Except`, and Django's
`transaction.atomic` rollback becomes returning the unchanged store on error.
-/

namespace Cinema

/-- A cinema hall's geometry: `rows` and `seats_in_row`, as in the
`CinemaHall` model referenced by `TicketCreateSerializer.validate`. -/
structure CinemaHall where
  rows : Int
  seats_in_row : Int
deriving DecidableEq

/-- Modelled from the spec: `CinemaHall.capacity` lives in `cinema/models.py`,
which is not part of the given sources; per the spec's data model,
`capacity = rows × seatsInRow`. -/
def CinemaHall.capacity (h : CinemaHall) : Int :=
  h.rows * h.seats_in_row

/-- A movie session with its hall (the only fields the reservation core
reads). -/
structure MovieSession where
  id : Int
  cinema_hall : CinemaHall
deriving DecidableEq

/-- A persisted ticket row: owning order, session, and seat coordinate. -/
structure Ticket where
  order_id : Nat
  movie_session_id : Int
  row : Int
  seat : Int
deriving DecidableEq

/-- A persisted order row. -/
structure Order where
  id : Nat
  user : Nat
deriving DecidableEq

/-- The persisted store: the `Order` and `Ticket` tables, plus the next
order primary key. -/
structure Store where
  orders : List Order
  tickets : List Ticket
  next_order_id : Nat
deriving DecidableEq

/-- The `(movieSessionId, row, seat)` key of a persisted ticket, the subject
of the table's uniqueness constraint. -/
def seatKey (t : Ticket) : Int × Int × Int :=
  (t.movie_session_id, t.row, t.seat)

/-- No two persisted tickets share a `(movieSessionId, row, seat)` key. -/
def SeatsUnique (s : Store) : Prop :=
  (s.tickets.map seatKey).Nodup

/-- A raw ticket dict from `initial_data`: each field is `some n` when
`int(...)` succeeds and `none` when the field is missing or non-integer. -/
structure RawTicket where
  movie_session : Option Int
  row : Option Int
  seat : Option Int
deriving DecidableEq

/-- A parsed ticket request `(movie_session, (row, seat))`. -/
abbrev TicketReq := Int × Int × Int

/-- The structured rejections raised by the order pipeline. `integrityError`
is modelled from the spec: the store's uniqueness constraint on
`(movieSessionId, row, seat)` (declared in `cinema/models.py`, not part of
the given sources) makes a conflicting insert fail at commit time. -/
inductive OrderError where
  | empty : OrderError
  | malformed : OrderError
  | duplicates : List TicketReq → OrderError
  | taken : List TicketReq → OrderError
  | integrityError : OrderError
deriving DecidableEq

deriving instance DecidableEq for Except

/-- Parse one raw entry, as `int(ticket.get("movie_session"))`,
`int(ticket.get("row"))`, `int(ticket.get("seat"))` do; `none` anywhere
models the `TypeError` / `ValueError` branch. -/
def parseTicket (t : RawTicket) : Option TicketReq :=
  match t.movie_session, t.row, t.seat with
  | some ms, some r, some s => some (ms, r, s)
  | _, _, _ => none

/-- Parse the whole payload; the Python loop raises on the first malformed
entry, so the batch parses iff every entry does. -/
def parseTickets : List RawTicket → Option (List TicketReq)
  | [] => some []
  | t :: rest =>
    match parseTicket t, parseTickets rest with
    | some x, some xs => some (x :: xs)
    | _, _ => none

/-- Look a session id up in the insertion-ordered `by_session` dict. -/
def lookupGroup (ms : Int) : List (Int × List (Int × Int)) → Option (List (Int × Int))
  | [] => none
  | (k, v) :: rest => if k = ms then some v else lookupGroup ms rest

/-- Append a pair to its session's group, creating the group at the end when
absent — the effect of `by_session.setdefault(ms_id, set()).add(key)`
(Python dicts and the modelled sets preserve insertion order). -/
def addToGroup (ms : Int) (p : Int × Int) : List (Int × List (Int × Int)) → List (Int × List (Int × Int))
  | [] => [(ms, [p])]
  | (k, v) :: rest =>
    if k = ms then (k, v ++ [p]) :: rest else (k, v) :: addToGroup ms p rest

/-- The accumulator of the grouping loop: the `by_session` dict and the
`duplicates` list. -/
abbrev GroupAcc := List (Int × List (Int × Int)) × List TicketReq

/-- One iteration of the grouping loop of `OrderCreateSerializer.validate`:
`seen = by_session.setdefault(ms_id, set())`; if `key in seen` record a
duplicate, else `seen.add(key)`. -/
def groupStep (acc : GroupAcc) (t : TicketReq) : GroupAcc :=
  match lookupGroup t.1 acc.1 with
  | none => (addToGroup t.1 t.2 acc.1, acc.2)
  | some seen =>
    if t.2 ∈ seen then (acc.1, acc.2 ++ [t])
    else (addToGroup t.1 t.2 acc.1, acc.2)

/-- The `duplicates` list produced by grouping a parsed batch. -/
def dupsOf (ts : List TicketReq) : List TicketReq :=
  (ts.foldl groupStep ([], [])).2

/-- Membership of the modelled `by_session` sets: the pair of `t` is in the
group of `t`'s session. -/
def seenIn (bs : List (Int × List (Int × Int))) (t : TicketReq) : Prop :=
  t.2 ∈ (lookupGroup t.1 bs).getD []

instance (bs : List (Int × List (Int × Int))) (t : TicketReq) : Decidable (seenIn bs t) :=
  inferInstanceAs (Decidable (t.2 ∈ (lookupGroup t.1 bs).getD []))

/-- Number of occurrences of a ticket request in a batch. -/
def countReq (t : TicketReq) : List TicketReq → Nat
  | [] => 0
  | x :: rest => (if x = t then 1 else 0) + countReq t rest

/-- Embedding of `OrderCreateSerializer.validate`: reject an empty payload,
parse every entry, group by session recording intra-batch duplicates, then
run the taken-seat conflict check. The conflict loop is translated
faithfully: the `if conflicts: raise` and the `return attrs` both sit inside
the loop body, so only the FIRST session group is ever checked before the
function raises or returns. -/
def orderValidate (store : Store) (payload : List RawTicket) :
    Except OrderError (List TicketReq) :=
  if payload.isEmpty then .error .empty
  else
    match parseTickets payload with
    | none => .error .malformed
    | some parsed =>
      let acc := parsed.foldl groupStep ([], [])
      if acc.2.isEmpty then
        match acc.1 with
        | [] => .ok parsed
        | (ms, requested) :: _ =>
          let rows := requested.map Prod.fst
          let existing := (store.tickets.filter fun t =>
            t.movie_session_id == ms && rows.contains t.row).map fun t => (t.row, t.seat)
          let conflicts := (requested.filter fun p => existing.contains p).map fun p => (ms, p)
          if conflicts.isEmpty then .ok parsed else .error (.taken conflicts)
      else .error (.duplicates acc.2)

/-- The tickets built by the `bulk_create` list comprehension for an order
id: one `Ticket` per request. -/
def mkTickets (oid : Nat) (ts : List TicketReq) : List Ticket :=
  ts.map fun td => Ticket.mk oid td.1 td.2.1 td.2.2

/-- Embedding of `OrderCreateSerializer.create`: inside
`transaction.atomic()`, create the order and bulk-insert one ticket per
request. The store's uniqueness constraint on `(movieSessionId, row, seat)`
(modelled from the spec; it is declared in `cinema/models.py`, outside the
given sources) makes the bulk insert fail — and the whole transaction roll
back — whenever the combined table would contain a duplicate key. -/
def orderCreate (store : Store) (user : Nat) (tickets_data : List TicketReq) :
    Except OrderError Store :=
  let oid := store.next_order_id
  let new_tickets := mkTickets oid tickets_data
  if ((store.tickets ++ new_tickets).map seatKey).Nodup then
    .ok { orders := store.orders ++ [Order.mk oid user],
          tickets := store.tickets ++ new_tickets,
          next_order_id := oid + 1 }
  else .error .integrityError

/-- The full order-creation pipeline: `validate` then `create`. A missing
`tickets` field reaches `validate` as `[]` via
`self.initial_data.get("tickets", [])`. -/
def createOrder (store : Store) (user : Nat) (payload : List RawTicket) :
    Except OrderError Store :=
  match orderValidate store payload with
  | .error e => .error e
  | .ok parsed => orderCreate store user parsed

/-- Run `createOrder` and report the resulting persisted store: on any error
the transaction (or the pre-transaction validation) leaves the store
unchanged. -/
def runCreateOrder (store : Store) (user : Nat) (payload : List RawTicket) :
    Store × Option OrderError :=
  match createOrder store user payload with
  | .ok s => (s, none)
  | .error e => (store, some e)

/-- The stores reachable from a starting store by any sequence of committed
`createOrder` calls. -/
inductive Reachable : Store → Store → Prop where
  | refl (s : Store) : Reachable s s
  | step (s₁ s₂ s₃ : Store) (u : Nat) (p : List RawTicket) :
      Reachable s₁ s₂ → createOrder s₂ u p = .ok s₃ → Reachable s₁ s₃

/-- Embedding of `TicketCreateSerializer.validate`: check the requested
`(row, seat)` against the session's hall geometry, collecting a field error
per violated bound before raising them together. -/
def ticketValidate (movie_session : MovieSession) (row seat : Int) :
    Except (List (String × String)) Unit :=
  let hall := movie_session.cinema_hall
  let errors : List (String × String) := []
  let errors :=
    if row < 1 ∨ hall.rows < row then
      errors ++ [("row", "Row must be within [1.." ++ toString hall.rows
        ++ "] for this cinema hall.")]
    else errors
  let errors :=
    if seat < 1 ∨ hall.seats_in_row < seat then
      errors ++ [("seat", "Seat must be within [1.." ++ toString hall.seats_in_row
        ++ "] for this cinema hall.")]
    else errors
  if errors.isEmpty then .ok () else .error errors

/-- The persisted tickets of one session, as filtered by
`Ticket.objects.filter(movie_session=obj)`. -/
def ticketsOfSession (store : Store) (ms_id : Int) : List Ticket :=
  store.tickets.filter fun t => t.movie_session_id == ms_id

/-- Embedding of
`MovieSessionListWithAvailabilitySerializer.get_tickets_available`:
`max(total_capacity - taken, 0)`. -/
def get_tickets_available (store : Store) (obj : MovieSession) : Int :=
  let total_capacity := obj.cinema_hall.capacity
  let taken : Int := (ticketsOfSession store obj.id).length
  max (total_capacity - taken) 0

/-- The empty store. -/
def store0 : Store := ⟨[], [], 0⟩

/-- A one-ticket payload: seat `(2, 2)` of session 1. -/
def p1 : List RawTicket := [⟨some 1, some 2, some 2⟩]

/-- The store produced by committing `p1` against `store0` for user 0. -/
def s1 : Store := ⟨[⟨0, 0⟩], [⟨0, 1, 2, 2⟩], 1⟩

/-- A store holding one committed order of user 1 with the single ticket
`(movieSession 2, row 1, seat 1)`. -/
def storeC2 : Store := ⟨[⟨0, 1⟩], [⟨0, 2, 1, 1⟩], 1⟩

/-- A two-session batch whose only conflict with `storeC2` sits in the
second session group. -/
def payC2 : List RawTicket := [⟨some 1, some 1, some 1⟩, ⟨some 2, some 1, some 1⟩]

/-- The same two requests with the conflicting session group first. -/
def payFirst : List RawTicket := [⟨some 2, some 1, some 1⟩, ⟨some 1, some 1, some 1⟩]

/-- A store holding one committed order of user 1 with the single ticket
`(movieSession 7, row 3, seat 4)`. -/
def storeC9 : Store := ⟨[⟨0, 1⟩], [⟨0, 7, 3, 4⟩], 1⟩

/-- A sequential re-request (by user 2) of the already-sold seat
`(7, 3, 4)`, preceded by a request for an untaken seat of session 5. -/
def payC9 : List RawTicket := [⟨some 5, some 2, some 2⟩, ⟨some 7, some 3, some 4⟩]

/-- The same `(session 5, row 2, seat 3)` request submitted twice. -/
def payDup : List RawTicket := [⟨some 5, some 2, some 3⟩, ⟨some 5, some 2, some 3⟩]

/-- The parsed form of `payDup`. -/
def tsDup : List TicketReq := [(5, (2, 3)), (5, (2, 3))]

end Cinema

namespace Cinema

lemma countReq_pos_iff_mem (t : TicketReq) : ∀ l : List TicketReq, 1 ≤ countReq t l ↔ t ∈ l := by
  intro l
  induction l with
  | nil => simp [countReq]
  | cons x rest ih =>
    by_cases hx : x = t
    · subst hx; simp [countReq]
    · simp [countReq, hx, ih, Ne.symm hx]

lemma countReq_eq_zero_iff (t : TicketReq) (l : List TicketReq) :
    countReq t l = 0 ↔ t ∉ l := by
  rw [← countReq_pos_iff_mem]
  omega

lemma nodup_iff_countReq_le_one : ∀ l : List TicketReq, l.Nodup ↔ ∀ t, countReq t l ≤ 1 := by
  intro l
  induction l with
  | nil => simp [countReq]
  | cons x rest ih =>
    rw [List.nodup_cons, ih]
    constructor
    · intro ⟨hx, hrest⟩ t
      by_cases ht : x = t
      · subst ht
        have := (countReq_eq_zero_iff x rest).mpr hx
        simp [countReq, this]
      · have := hrest t
        simp [countReq, ht]
        omega
    · intro h
      constructor
      · have := h x
        simp [countReq] at this
        rw [← countReq_eq_zero_iff]
        omega
      · intro t
        have := h t
        simp [countReq] at this
        by_cases ht : x = t <;> simp [ht] at this <;> omega

lemma lookupGroup_addToGroup_self (ms : Int) (p : Int × Int) :
    ∀ bs, lookupGroup ms (addToGroup ms p bs) = some ((lookupGroup ms bs).getD [] ++ [p]) := by
  intro bs
  induction bs with
  | nil => simp [addToGroup, lookupGroup]
  | cons kv rest ih =>
    obtain ⟨k, v⟩ := kv
    by_cases hk : k = ms
    · subst hk; simp [addToGroup, lookupGroup]
    · simp [addToGroup, lookupGroup, hk, ih]

lemma lookupGroup_addToGroup_ne (ms ms' : Int) (p : Int × Int) (h : ms ≠ ms') :
    ∀ bs, lookupGroup ms (addToGroup ms' p bs) = lookupGroup ms bs := by
  intro bs
  induction bs with
  | nil => simp [addToGroup, lookupGroup, Ne.symm h]
  | cons kv rest ih =>
    obtain ⟨k, v⟩ := kv
    by_cases hk : k = ms'
    · subst hk
      simp [addToGroup, lookupGroup, Ne.symm h, ih]
    · simp [addToGroup, lookupGroup, hk, ih]

lemma seenIn_addToGroup_self (bs : List (Int × List (Int × Int))) (t : TicketReq) :
    seenIn (addToGroup t.1 t.2 bs) t := by
  simp [seenIn, lookupGroup_addToGroup_self]

lemma seenIn_addToGroup_ne (bs : List (Int × List (Int × Int))) (t t' : TicketReq)
    (h : t ≠ t') : seenIn (addToGroup t'.1 t'.2 bs) t ↔ seenIn bs t := by
  obtain ⟨tm, tp⟩ := t
  obtain ⟨tm', tp'⟩ := t'
  by_cases hms : tm = tm'
  · subst hms
    have hp : tp ≠ tp' := by
      intro hp
      exact h (by rw [hp])
    simp [seenIn, lookupGroup_addToGroup_self, hp]
  · simp [seenIn, lookupGroup_addToGroup_ne tm tm' tp' hms]

lemma groupStep_fst_seenIn (acc : GroupAcc) (t t' : TicketReq) :
    seenIn (groupStep acc t').1 t ↔ (seenIn acc.1 t ∨ t = t') := by
  unfold groupStep
  cases hg : lookupGroup t'.1 acc.1 with
  | none =>
    by_cases ht : t = t'
    · subst ht
      simp [seenIn_addToGroup_self]
    · simp [seenIn_addToGroup_ne acc.1 t t' ht, ht]
  | some seen =>
    by_cases hmem : t'.2 ∈ seen
    · simp only [hmem, if_true]
      by_cases ht : t = t'
      · subst ht
        have : seenIn acc.1 t := by simp [seenIn, hg, hmem]
        simp [this]
      · simp [ht]
    · simp only [hmem, if_false]
      by_cases ht : t = t'
      · subst ht
        simp [seenIn_addToGroup_self]
      · simp [seenIn_addToGroup_ne acc.1 t t' ht, ht]

lemma groupStep_snd (acc : GroupAcc) (t' : TicketReq) :
    (groupStep acc t').2 = if seenIn acc.1 t' then acc.2 ++ [t'] else acc.2 := by
  unfold groupStep
  cases hg : lookupGroup t'.1 acc.1 with
  | none =>
    have : ¬ seenIn acc.1 t' := by simp [seenIn, hg]
    simp [this]
  | some seen =>
    by_cases hmem : t'.2 ∈ seen
    · have : seenIn acc.1 t' := by simp [seenIn, hg, hmem]
      simp [hmem, this]
    · have : ¬ seenIn acc.1 t' := by simp [seenIn, hg, hmem]
      simp [hmem, this]

lemma mem_dups_foldl : ∀ (ts : List TicketReq) (acc : GroupAcc) (t : TicketReq),
    t ∈ (ts.foldl groupStep acc).2 ↔
      (t ∈ acc.2 ∨ (seenIn acc.1 t ∧ t ∈ ts) ∨ 2 ≤ countReq t ts) := by
  intro ts
  induction ts with
  | nil => intro acc t; simp [countReq]
  | cons t' rest ih =>
    intro acc t
    rw [List.foldl_cons, ih, groupStep_snd, groupStep_fst_seenIn]
    have hmem := countReq_pos_iff_mem t rest
    by_cases ht : t = t'
    · subst ht
      by_cases hs : seenIn acc.1 t
      · simp [hs, countReq]
      · simp [hs, countReq]
        rw [← hmem]
        by_cases ha : t ∈ acc.2
        · simp [ha]
        · simp [ha]
          omega
    · have hcount : countReq t (t' :: rest) = countReq t rest := by
        simp [countReq, Ne.symm ht]
      by_cases hs : seenIn acc.1 t' <;>
        simp [hs, ht, hcount]

lemma mem_dupsOf (ts : List TicketReq) (t : TicketReq) :
    t ∈ dupsOf ts ↔ 2 ≤ countReq t ts := by
  rw [dupsOf, mem_dups_foldl]
  simp [seenIn, lookupGroup]

lemma dupsOf_eq_nil_iff (ts : List TicketReq) : dupsOf ts = [] ↔ ts.Nodup := by
  rw [List.eq_nil_iff_forall_not_mem, nodup_iff_countReq_le_one]
  constructor <;> intro h t <;> have := h t <;> rw [mem_dupsOf] at * <;> omega

lemma parseTickets_length : ∀ {p : List RawTicket} {ts : List TicketReq},
    parseTickets p = some ts → ts.length = p.length := by
  intro p
  induction p with
  | nil => intro ts h; cases h; rfl
  | cons t rest ih =>
    intro ts h
    unfold parseTickets at h
    cases hpt : parseTicket t with
    | none => rw [hpt] at h; cases h
    | some x =>
      cases hpr : parseTickets rest with
      | none => rw [hpt, hpr] at h; cases h
      | some xs =>
        rw [hpt, hpr] at h
        cases h
        simp [ih hpr]

lemma orderValidate_ok_parse {s : Store} {p : List RawTicket} {ts : List TicketReq}
    (h : orderValidate s p = .ok ts) : parseTickets p = some ts := by
  unfold orderValidate at h
  split at h
  · cases h
  · split at h
    · cases h
    · rename_i parsed heq
      simp only [] at h
      split at h
      · split at h
        · cases h; exact heq
        · split at h
          · cases h; exact heq
          · cases h
      · cases h

lemma createOrder_ok_seatsUnique {s s' : Store} {u : Nat} {p : List RawTicket}
    (h : createOrder s u p = .ok s') : SeatsUnique s' := by
  unfold createOrder at h
  cases hv : orderValidate s p with
  | error e => rw [hv] at h; exact absurd h (by simp)
  | ok parsed =>
    rw [hv] at h
    simp only [orderCreate] at h
    split at h
    · cases h
      exact ‹((s.tickets ++ _).map seatKey).Nodup›
    · exact absurd h (by simp)

end Cinema

namespace Cinema

/-- Claim C1: every store reachable from a seat-unique store by any sequence
of committed `createOrder` calls is itself seat-unique — no two persisted
tickets ever share the same `(movieSessionId, row, seat)`; in particular each
single `createOrder` commit preserves the invariant. -/
theorem seat_uniqueness_invariant_preserved (s₀ s : Store)
    (h : Reachable s₀ s) (h₀ : SeatsUnique s₀) : SeatsUnique s := by
  induction h with
  | refl => exact h₀
  | step s₂ s₃ u p hreach hok ih => exact createOrder_ok_seatsUnique hok

theorem seat_uniqueness_invariant_preserved_witness : SeatsUnique s1 :=
  seat_uniqueness_invariant_preserved store0 s1
    (Reachable.step store0 store0 s1 0 p1 (Reachable.refl store0) (by decide))
    (by simp [SeatsUnique, store0])

/-- Claim C2 (code behavior at the failing input): with seat `(1, 1)` of
session 2 already persisted, a duplicate-free two-session batch whose only
conflict lies in the second session group passes `orderValidate` untouched
— the conflict loop returns after checking only the first group — and the
commit then fails with the store-level `integrityError`, not with
`ValidationError(taken)`; the same conflict placed in the first group is
rejected as `taken`. -/
theorem conflict_check_misses_later_group :
    orderValidate storeC2 payC2 = .ok [(1, (1, 1)), (2, (1, 1))]
    ∧ runCreateOrder storeC2 9 payC2 = (storeC2, some OrderError.integrityError)
    ∧ orderValidate storeC2 payFirst = .error (.taken [(2, (1, 1))]) := by
  decide

/-- Claim C3: `createOrder` is all-or-nothing — on any error the persisted
store is unchanged, and on success the new store holds exactly the one new
order plus exactly one ticket per request (never a strict subset). -/
theorem createOrder_all_or_nothing (s : Store) (u : Nat) (p : List RawTicket) :
    (∀ s₁ e, runCreateOrder s u p = (s₁, some e) → s₁ = s)
    ∧ (∀ s', runCreateOrder s u p = (s', none) →
        ∃ ts, parseTickets p = some ts ∧ ts.length = p.length
          ∧ s'.orders = s.orders ++ [Order.mk s.next_order_id u]
          ∧ s'.tickets = s.tickets ++ mkTickets s.next_order_id ts) := by
  constructor
  · intro s₁ e h
    unfold runCreateOrder at h
    cases hc : createOrder s u p with
    | ok s2 => rw [hc] at h; simp at h
    | error e2 => rw [hc] at h; cases h; rfl
  · intro s' h
    unfold runCreateOrder at h
    cases hc : createOrder s u p with
    | error e2 => rw [hc] at h; simp at h
    | ok s2 =>
      rw [hc] at h
      cases h
      unfold createOrder at hc
      cases hv : orderValidate s p with
      | error e => rw [hv] at hc; cases hc
      | ok parsed =>
        rw [hv] at hc
        have hparse := orderValidate_ok_parse hv
        refine ⟨parsed, hparse, parseTickets_length hparse, ?_, ?_⟩ <;>
        · simp only [orderCreate] at hc
          split at hc
          · cases hc; simp [mkTickets]
          · cases hc

theorem createOrder_all_or_nothing_witness :
    store0 = store0 ∧
    (∃ ts, parseTickets p1 = some ts ∧ ts.length = p1.length
      ∧ s1.orders = store0.orders ++ [Order.mk store0.next_order_id 0]
      ∧ s1.tickets = store0.tickets ++ mkTickets store0.next_order_id ts) :=
  ⟨(createOrder_all_or_nothing store0 3 []).1 store0 OrderError.empty rfl,
   (createOrder_all_or_nothing store0 0 p1).2 s1 (by decide)⟩

/-- Claim C5: the geometry check of `TicketCreateSerializer.validate`
accepts exactly the coordinates inside the session's hall grid, and each
rejected field carries the message quoting that hall's valid range. -/
theorem ticketValidate_iff_in_bounds (ms : MovieSession) (row seat : Int) :
    (ticketValidate ms row seat = .ok () ↔
      (1 ≤ row ∧ row ≤ ms.cinema_hall.rows
        ∧ 1 ≤ seat ∧ seat ≤ ms.cinema_hall.seats_in_row))
    ∧ (∀ errs, ticketValidate ms row seat = .error errs →
        ((row < 1 ∨ ms.cinema_hall.rows < row) →
          ("row", "Row must be within [1.." ++ toString ms.cinema_hall.rows
            ++ "] for this cinema hall.") ∈ errs)
        ∧ ((seat < 1 ∨ ms.cinema_hall.seats_in_row < seat) →
          ("seat", "Seat must be within [1.." ++ toString ms.cinema_hall.seats_in_row
            ++ "] for this cinema hall.") ∈ errs)) := by
  constructor
  · by_cases hr : row < 1 ∨ ms.cinema_hall.rows < row <;>
      by_cases hs : seat < 1 ∨ ms.cinema_hall.seats_in_row < seat <;>
      simp [ticketValidate, hr, hs] <;> omega
  · intro errs herr
    by_cases hr : row < 1 ∨ ms.cinema_hall.rows < row <;>
      by_cases hs : seat < 1 ∨ ms.cinema_hall.seats_in_row < seat <;>
      simp [ticketValidate, hr, hs] at herr <;>
      subst herr <;> simp [hr, hs]

theorem ticketValidate_iff_in_bounds_witness :
    ticketValidate ⟨1, ⟨10, 15⟩⟩ 2 3 = .ok () :=
  (ticketValidate_iff_in_bounds ⟨1, ⟨10, 15⟩⟩ 2 3).1.mpr (by decide)

/-- Claim C6: the availability count equals
`max(capacity(hall) - |tickets(session)|, 0)` and is never negative, for
every persisted store, including stores whose ticket count exceeds the
capacity. -/
theorem tickets_available_formula (store : Store) (obj : MovieSession) :
    get_tickets_available store obj =
      max (obj.cinema_hall.capacity - ((ticketsOfSession store obj.id).length : Int)) 0
    ∧ 0 ≤ get_tickets_available store obj :=
  ⟨rfl, le_max_right _ _⟩

/-- Claim C7: an empty (or missing, which `initial_data.get` defaults to the
empty list) ticket payload is always rejected with the `empty` error, for
every store alike — the rejection does not consult the store — and the
persisted store is returned unchanged. -/
theorem createOrder_empty_payload_rejected (store : Store) (user : Nat) :
    runCreateOrder store user [] = (store, some OrderError.empty) := rfl

/-- Claim C8: a well-formed batch in which some `(session, row, seat)`
triple occurs more than once is rejected as a whole with the `duplicates`
error whose list enumerates exactly the duplicated triples, and the store
is left unchanged — zero tickets are created. -/
theorem orderValidate_duplicates_rejected (store : Store) (u : Nat)
    (payload : List RawTicket) (ts : List TicketReq)
    (hparse : parseTickets payload = some ts) (hdup : ¬ ts.Nodup) :
    orderValidate store payload = .error (.duplicates (dupsOf ts))
    ∧ (∀ t, 2 ≤ countReq t ts → t ∈ dupsOf ts)
    ∧ (∀ t, t ∈ dupsOf ts → 2 ≤ countReq t ts)
    ∧ (runCreateOrder store u payload).1 = store := by
  have hne : payload ≠ [] := by
    intro he
    subst he
    cases hparse
    exact hdup List.nodup_nil
  have hd : dupsOf ts ≠ [] := by
    rw [Ne, dupsOf_eq_nil_iff]
    exact hdup
  have hval : orderValidate store payload = .error (.duplicates (dupsOf ts)) := by
    cases payload with
    | nil => exact absurd rfl hne
    | cons a l =>
      unfold orderValidate
      rw [hparse]
      simp only [List.isEmpty_cons, if_false, Bool.false_eq_true]
      rw [if_neg (by simp [dupsOf] at hd ⊢; exact hd)]
      rfl
  refine ⟨hval, fun t h => (mem_dupsOf ts t).mpr h, fun t h => (mem_dupsOf ts t).mp h, ?_⟩
  unfold runCreateOrder createOrder
  rw [hval]

theorem orderValidate_duplicates_rejected_witness :
    orderValidate store0 payDup = .error (.duplicates (dupsOf tsDup))
    ∧ ((5, (2, 3)) ∈ dupsOf tsDup)
    ∧ (runCreateOrder store0 7 payDup).1 = store0 :=
  ⟨(orderValidate_duplicates_rejected store0 7 payDup tsDup rfl (by decide)).1,
   (orderValidate_duplicates_rejected store0 7 payDup tsDup rfl (by decide)).2.1
     (5, (2, 3)) (by decide),
   (orderValidate_duplicates_rejected store0 7 payDup tsDup rfl (by decide)).2.2.2⟩

/-- Claim C9 (code behavior at the failing input): a sequential re-request
of seat `(row 3, seat 4)` of session 7, already sold to a different user's
prior order, is NOT rejected as `taken` when that session is not the first
group the conflict loop examines: `orderValidate` accepts the batch and the
commit fails with the store-level `integrityError`; the store is unchanged,
so the existing ticket is never overwritten or duplicated. -/
theorem taken_seat_in_later_group_not_rejected_as_taken :
    orderValidate storeC9 payC9 = .ok [(5, (2, 2)), (7, (3, 4))]
    ∧ runCreateOrder storeC9 2 payC9 = (storeC9, some OrderError.integrityError) := by
  decide

/-- Claim C10: when both the row and the seat lie outside the hall's grid,
`TicketCreateSerializer.validate` reports the two field errors together in
the single rejection, each quoting its range, instead of stopping at the
first violation. -/
theorem ticketValidate_reports_both_bounds (ms : MovieSession) (row seat : Int)
    (hr : row < 1 ∨ ms.cinema_hall.rows < row)
    (hs : seat < 1 ∨ ms.cinema_hall.seats_in_row < seat) :
    ticketValidate ms row seat = .error
      [("row", "Row must be within [1.." ++ toString ms.cinema_hall.rows
          ++ "] for this cinema hall."),
       ("seat", "Seat must be within [1.." ++ toString ms.cinema_hall.seats_in_row
          ++ "] for this cinema hall.")] := by
  simp [ticketValidate, hr, hs]

theorem ticketValidate_reports_both_bounds_witness :
    ticketValidate ⟨1, ⟨10, 15⟩⟩ 0 99 = .error
      [("row", "Row must be within [1.." ++ toString (10 : Int)
          ++ "] for this cinema hall."),
       ("seat", "Seat must be within [1.." ++ toString (15 : Int)
          ++ "] for this cinema hall.")] :=
  ticketValidate_reports_both_bounds ⟨1, ⟨10, 15⟩⟩ 0 99 (by decide) (by decide)

end Cinema
